import Mathlib

set_option maxHeartbeats 1000000

/-!
Formal model of the NiimbotBluetoothClient session / command-correlation layer
of niimbluelib (source file src/client/bluetooth_impl.ts), shallowly embedded
in Lean 4.  Pure decision logic is translated function-by-function from the
source; the asynchronous parts (the async-mutex critical sections, the
event-bus dispatch and the response-correlation promise) are embedded as
explicit state passing and a small-step transition relation.
-/

/-- Modelled from the spec: the Packet data model (section 3 of the design
document).  The class NiimbotPacket lives in src/packets/packet.ts, which is
not part of the provided sources; the spec describes it as an opaque value
carrying a command identifier, a payload, a oneWay flag and the set
validResponseIds of command identifiers that satisfy a pending request. -/
structure NiimbotPacket where
  command : Nat
  payload : List Nat
  oneWay : Bool
  validResponseIds : List Nat
deriving DecidableEq, Repr

namespace ResponseCommandId

/-- Modelled from the spec: the sentinel "invalid / no-response" command
identifier of the ResponseCommandId enumeration (src/packets, not in the
provided sources).  The concrete numeric value is irrelevant to every claim;
0 is used as a placeholder. -/
def Invalid : Nat := 0

end ResponseCommandId

namespace ConnectResult

/-- Modelled from the spec: the generic firmware-error connect-result code
(ConnectResult.FirmwareErrors in src/packets, not in the provided sources),
used as the default when negotiation never produced a connect result.  The
concrete numeric value is irrelevant to every claim; 1 is used as a
placeholder. -/
def FirmwareErrors : Nat := 1

end ConnectResult

namespace Utils

/-- Modelled from the spec: Utils.numberToHex (src/utils.ts, not in the
provided sources) renders a number in hexadecimal. -/
def numberToHex (n : Nat) : String := String.mk (Nat.toDigits 16 n)

/-- Modelled from the spec: Utils.bufToHex (src/utils.ts, not in the provided
sources) renders a sequence of numbers in hexadecimal, joined by the given
separator.  Used by the timeout error message to name the expected response
identifier set. -/
def bufToHex (buf : List Nat) (sep : String) : String :=
  String.intercalate sep (buf.map numberToHex)

end Utils

/-- State of one in-flight two-way exchange of sendPacketWaitResponse
(bluetooth_impl.ts lines 152-172): the captured validResponseIds of the
outbound packet, whether the packetreceived listener is currently registered,
whether the timeout timer is still armed, the timer duration, and the
resolution of the returned promise (none while pending). -/
instance {α β : Type} [DecidableEq α] [DecidableEq β] : DecidableEq (Except α β) :=
  fun a b =>
    match a, b with
    | Except.error x, Except.error y =>
        if h : x = y then isTrue (by rw [h]) else isFalse (by simp [h])
    | Except.error _, Except.ok _ => isFalse (by simp)
    | Except.ok _, Except.error _ => isFalse (by simp)
    | Except.ok x, Except.ok y =>
        if h : x = y then isTrue (by rw [h]) else isFalse (by simp [h])

structure Exchange where
  waitIds : List Nat
  listenerRegistered : Bool
  timerActive : Bool
  timerMs : Nat
  outcome : Option (Except String NiimbotPacket)
deriving DecidableEq, Repr

/-- Timeout error message of bluetooth_impl.ts line 168. -/
def timeoutMessage (ids : List Nat) : String :=
  "Timeout waiting response (waited for " ++ Utils.bufToHex ids ", " ++ ")"

/-- Creation of the pending exchange for a two-way packet (bluetooth_impl.ts
lines 152-171): the timer is armed with timeoutMs when given and 1000
otherwise, and the packetreceived listener is registered. -/
def mkExchange (packet : NiimbotPacket) (timeoutMs : Option Nat) : Exchange :=
  { waitIds := packet.validResponseIds
    listenerRegistered := true
    timerActive := true
    timerMs := timeoutMs.getD 1000
    outcome := none }

/-- The packetreceived listener of bluetooth_impl.ts lines 155-164: if the
request's validResponseIds is empty or contains the inbound packet's command,
clear the timer, deregister the listener and resolve with the inbound packet;
otherwise do nothing.  The listener only runs while it is registered. -/
def onPacket (p : NiimbotPacket) (e : Exchange) : Exchange :=
  if e.listenerRegistered then
    if e.waitIds.length == 0 || e.waitIds.contains p.command then
      { e with timerActive := false, listenerRegistered := false,
               outcome := some (Except.ok p) }
    else e
  else e

/-- The timeout callback of bluetooth_impl.ts lines 166-169: when the timer
fires, deregister the listener and reject with the timeout error message.
The callback only runs while the timer is armed (clearTimeout cancels it). -/
def onTimeout (e : Exchange) : Exchange :=
  if e.timerActive then
    { e with timerActive := false, listenerRegistered := false,
             outcome := some (Except.error (timeoutMessage e.waitIds)) }
  else e

/-- Result of the body of sendPacketWaitResponse right after the write
(bluetooth_impl.ts lines 146-172): either an immediate return with the
sentinel invalid packet (the oneWay branch), or a pending exchange awaiting
a response or the timeout. -/
inductive SendOutcome
  | immediate (p : NiimbotPacket)
  | await (e : Exchange)
deriving DecidableEq, Repr

/-- Modelled from the spec: the sentinel invalid packet built by
new NiimbotPacket(ResponseCommandId.Invalid, []) at bluetooth_impl.ts line
147 (the NiimbotPacket constructor is in src/packets/packet.ts, not in the
provided sources); a sentinel "invalid / no-response" packet with empty
payload. -/
def NiimbotPacket.invalidSentinel : NiimbotPacket :=
  { command := ResponseCommandId.Invalid, payload := [], oneWay := true
    validResponseIds := [] }

/-- The post-write part of sendPacketWaitResponse (bluetooth_impl.ts lines
146-172): a oneWay packet returns immediately with the sentinel invalid
packet; otherwise a pending exchange is created with listener and timer. -/
def sendPacketWaitResponseSetup (packet : NiimbotPacket) (timeoutMs : Option Nat) :
    SendOutcome :=
  if packet.oneWay then SendOutcome.immediate NiimbotPacket.invalidSentinel
  else SendOutcome.await (mkExchange packet timeoutMs)

/-- Whether the outcome of the post-write phase registered a packetreceived
listener. -/
def SendOutcome.registersListener : SendOutcome → Bool
  | SendOutcome.immediate _ => false
  | SendOutcome.await e => e.listenerRegistered

/-- Whether the outcome of the post-write phase started a timeout timer. -/
def SendOutcome.startsTimer : SendOutcome → Bool
  | SendOutcome.immediate _ => false
  | SendOutcome.await e => e.timerActive

/-- Observable emissions of the client: the typed events dispatched on the
event bus (connect, disconnect, packetreceived, rawpacketreceived,
rawpacketsent), the console warning of bluetooth_impl.ts line 77 and the
console error of line 90. -/
inductive Obs
  | connectEv (deviceName : Option String) (result : Nat)
  | disconnectEv
  | packetreceivedEv (p : NiimbotPacket)
  | rawpacketreceivedEv (data : List Nat)
  | rawpacketsentEv (data : List Nat)
  | warn (command : Nat)
  | consoleError (msg : String)
deriving DecidableEq, Repr

/-- Session state of the client: gattServer and channel model whether the
corresponding fields of NiimbotBluetoothClient are set (defined) or
undefined, info models this.info.connectResult (none when info is the empty
record), exchange is the pending two-way exchange when one is in flight, and
obs is the log of observable emissions. -/
structure ClientState where
  gattServer : Bool
  channel : Bool
  info : Option Nat
  exchange : Option Exchange
  obs : List Obs
deriving DecidableEq, Repr

/-- isConnected of bluetooth_impl.ts lines 125-127: true exactly when both
gattServer and channel are set. -/
def isConnected (s : ClientState) : Bool := s.gattServer && s.channel

/-- Explicit disconnect of bluetooth_impl.ts lines 130-136: stops the
heartbeat (abstract-client method, no modelled state), asks the transport to
disconnect, and clears gattServer, channel and info.  It does not touch the
pending exchange and dispatches no event itself. -/
def disconnect (s : ClientState) : ClientState :=
  { s with gattServer := false, channel := false, info := none }

/-- The gattserverdisconnected listener of bluetooth_impl.ts lines 46-52:
clears gattServer, channel and info, dispatches the disconnect event, and
removes itself.  It does not touch the pending exchange. -/
def disconnectListener (s : ClientState) : ClientState :=
  { s with gattServer := false, channel := false, info := none,
           obs := s.obs ++ [Obs.disconnectEv] }

/-- The characteristicvaluechanged handler of bluetooth_impl.ts lines 68-79
combined with the synchronous delivery of the packetreceived dispatch to the
correlator's listener: decode the bytes, dispatch rawpacketreceived then
packetreceived (the latter runs the pending exchange's listener when one is
registered), then warn when the decoded command is not a recognized response
identifier.  decode models NiimbotPacket.fromBytes and isRespId models the
membership test in the ResponseCommandId enumeration (both live in
src/packets, not in the provided sources). -/
def processInbound (isRespId : Nat → Bool) (decode : List Nat → NiimbotPacket)
    (data : List Nat) (s : ClientState) : ClientState :=
  let packet := decode data
  let s1 := { s with obs := s.obs ++ [Obs.rawpacketreceivedEv data] }
  let s2 := { s1 with obs := s1.obs ++ [Obs.packetreceivedEv packet],
                      exchange := s1.exchange.map (onPacket packet) }
  if isRespId packet.command then s2
  else { s2 with obs := s2.obs ++ [Obs.warn packet.command] }

/-- Capability flags of a Bluetooth GATT characteristic, as consumed by
findSuitableBluetoothCharacteristic (bluetooth_impl.ts line 117). -/
structure BtCharacteristic where
  uuid : String
  notify : Bool
  writeWithoutResponse : Bool
deriving DecidableEq, Repr

/-- A Bluetooth GATT primary service: its uuid and its characteristics, as
enumerated by findSuitableBluetoothCharacteristic (bluetooth_impl.ts lines
107-114). -/
structure BtService where
  uuid : String
  characteristics : List BtCharacteristic
deriving DecidableEq, Repr

/-- findSuitableBluetoothCharacteristic of bluetooth_impl.ts lines 104-123:
walk the primary services in order, skip any whose uuid is shorter than 5
characters, and return the first characteristic of a remaining service that
supports both notify and writeWithoutResponse; none when no characteristic
qualifies. -/
def findSuitableBluetoothCharacteristic : List BtService → Option BtCharacteristic
  | [] => none
  | sv :: rest =>
    if sv.uuid.length < 5 then
      findSuitableBluetoothCharacteristic rest
    else
      match sv.characteristics.find? (fun c => c.notify && c.writeWithoutResponse) with
      | some c => some c
      | none => findSuitableBluetoothCharacteristic rest

/-- The ConnectionInfo result of connect (bluetooth_impl.ts lines 94-97). -/
structure ConnectionInfo where
  deviceName : Option String
  result : Nat
deriving DecidableEq, Repr

/-- Environment driving one connect() run: whether device.gatt is defined,
the device name, the primary services the transport reports, and the outcome
of the negotiation phase.  negotiation is Except.ok r when initialNegotiate
and fetchPrinterInfo complete leaving this.info.connectResult = r, and
Except.error r when they throw leaving this.info.connectResult = r (both
methods live in the abstract client, outside the provided sources; their
effect on this.info.connectResult is supplied by the environment). -/
structure ConnectEnv where
  gattAvailable : Bool
  deviceName : Option String
  services : List BtService
  negotiation : Except (Option Nat) (Option Nat)

/-- Labels for the successive phases of a connect() run, in the statement
order of bluetooth_impl.ts lines 33-102. -/
inductive ConnectPhase
  | disconnectPrior
  | findCharacteristic
  | startNotifications
  | assignSessionFields
  | negotiationStart
  | negotiationEnd
  | dispatchConnect
deriving DecidableEq, Repr

/-- Result of one connect() run: the final client state, the returned
ConnectionInfo or the thrown error message, and the trace of phases with the
client state as each phase begins. -/
structure ConnectRun where
  final : ClientState
  result : Except String ConnectionInfo
  trace : List (ConnectPhase × ClientState)

/-- connect of bluetooth_impl.ts lines 33-102: first disconnect, then fail
when the device has no GATT profile; then select a characteristic and fail
(leaving the session cleared) when none qualifies; otherwise register the
notification handler, start notifications, assign gattServer and channel,
run the negotiation commands inside try/catch (a throw is logged and
swallowed), build the ConnectionInfo with the negotiated connectResult
defaulting to ConnectResult.FirmwareErrors, dispatch the connect event and
return. -/
def connect (env : ConnectEnv) (s : ClientState) : ConnectRun :=
  let s0 := disconnect s
  if env.gattAvailable = false then
    { final := s0
      result := Except.error "Device has no Bluetooth Generic Attribute Profile"
      trace := [(ConnectPhase.disconnectPrior, s0)] }
  else
    match findSuitableBluetoothCharacteristic env.services with
    | none =>
      { final := s0
        result := Except.error "Suitable device characteristic not found"
        trace := [(ConnectPhase.disconnectPrior, s0),
                  (ConnectPhase.findCharacteristic, s0)] }
    | some _c =>
      let s1 : ClientState := { s0 with gattServer := true, channel := true }
      let s2 : ClientState :=
        match env.negotiation with
        | Except.ok r => { s1 with info := r }
        | Except.error r =>
          { s1 with info := r,
                    obs := s1.obs ++ [Obs.consoleError "Unable to fetch printer info."] }
      let res : ConnectionInfo :=
        { deviceName := env.deviceName
          result := s2.info.getD ConnectResult.FirmwareErrors }
      let s3 : ClientState :=
        { s2 with obs := s2.obs ++ [Obs.connectEv env.deviceName res.result] }
      { final := s3
        result := Except.ok res
        trace := [(ConnectPhase.disconnectPrior, s0),
                  (ConnectPhase.findCharacteristic, s0),
                  (ConnectPhase.startNotifications, s0),
                  (ConnectPhase.assignSessionFields, s1),
                  (ConnectPhase.negotiationStart, s1),
                  (ConnectPhase.negotiationEnd, s2),
                  (ConnectPhase.dispatchConnect, s3)] }

/-- Primitive actions performed by sendRaw (bluetooth_impl.ts lines
176-191): acquiring and releasing the async-mutex, the inter-packet sleep,
the writeValueWithoutResponse call, and the rawpacketsent dispatch. -/
inductive RawAct
  | lockAcquire
  | lockRelease
  | sleepAct (ms : Nat)
  | writeAct (data : List Nat)
  | rawpacketsentAct (data : List Nat)
deriving DecidableEq, Repr

/-- The inner send closure of sendRaw (bluetooth_impl.ts lines 177-184):
throw "Channel is closed" when the channel is unset; otherwise sleep the
inter-packet delay, write the bytes without response, and dispatch
rawpacketsent.  Returns the performed actions and the thrown message when
one is thrown. -/
def sendBody (channelSet : Bool) (packetIntervalMs : Nat) (data : List Nat) :
    List RawAct × Option String :=
  if channelSet then
    ([RawAct.sleepAct packetIntervalMs, RawAct.writeAct data,
      RawAct.rawpacketsentAct data], none)
  else ([], some "Channel is closed")

/-- sendRaw of bluetooth_impl.ts lines 176-191: with force the send closure
runs directly; without force it runs inside mutex.runExclusive, which
acquires the lock first and releases it when the closure resolves or throws. -/
def sendRaw (channelSet : Bool) (packetIntervalMs : Nat) (data : List Nat)
    (force : Bool) : List RawAct × Option String :=
  if force then sendBody channelSet packetIntervalMs data
  else
    let r := sendBody channelSet packetIntervalMs data
    (RawAct.lockAcquire :: r.1 ++ [RawAct.lockRelease], r.2)

/-- Whether an action is a mutex acquisition or release. -/
def RawAct.isLockAct : RawAct → Bool
  | RawAct.lockAcquire => true
  | RawAct.lockRelease => true
  | _ => false

/-- Kind of a task contending for the client's mutex: a sendPacketWaitResponse
exchange (bluetooth_impl.ts line 143) or a non-forced sendRaw (line 189). -/
inductive TaskKind
  | exchange
  | rawSend
deriving DecidableEq, Repr

/-- Phase of one task: idle (not yet issued), waiting (queued on the mutex),
writing (holding the mutex, performing the transport write), awaiting
(holding the mutex, exchange waiting for the response or the timeout),
finished (completed successfully, mutex released), finishedErr (completed
with a timeout or a throw, mutex released). -/
inductive TPhase
  | idle
  | waiting
  | writing
  | awaiting
  | finished
  | finishedErr
deriving DecidableEq, Repr

/-- A phase is critical when the task is inside mutex.runExclusive: during
the write and, for an exchange, while awaiting the response or timeout. -/
def InCritical (ph : TPhase) : Prop := ph = TPhase.writing ∨ ph = TPhase.awaiting

instance (ph : TPhase) : Decidable (InCritical ph) := by
  unfold InCritical; infer_instance

/-- Global state of the cooperative scheduler: the mutex holder, the FIFO
queue of waiters, the history of admissions and of enqueues, the fixed kind
of each task, and each task's phase.  Modelled from the spec: the async-mutex
library (an external dependency, not in the provided sources) is described in
section 4.3 as a mutual-exclusion gate admitting queued callers in FIFO
arrival order and releasing on resolution or throw. -/
structure MutexSys where
  holder : Option Nat
  queue : List Nat
  admitted : List Nat
  enqueued : List Nat
  kind : Nat → TaskKind
  phase : Nat → TPhase

/-- Pointwise update of a task-phase assignment. -/
def setPhase (f : Nat → TPhase) (t : Nat) (ph : TPhase) : Nat → TPhase :=
  fun u => if u = t then ph else f u

/-- Small-step transitions of the client's cooperative concurrency:
tasks call runExclusive (enqueue), the mutex admits the queue head when free
(acquire), an exchange's write completes and it starts awaiting its response
(writeDone), a raw send finishes after its write and releases (rawWriteFinish),
an awaiting exchange resolves with a matching packet (resolveOk) or its
timeout fires (resolveTimeout) and releases, and a throw inside the critical
section releases (throwDuringSection).  There is no transition that releases
the mutex for an exchange merely because its write completed. -/
inductive MStep : MutexSys → MutexSys → Prop
  | enqueue (s : MutexSys) (t : Nat) (h : s.phase t = TPhase.idle) :
      MStep s { s with phase := setPhase s.phase t TPhase.waiting,
                       queue := s.queue ++ [t], enqueued := s.enqueued ++ [t] }
  | acquire (s : MutexSys) (t : Nat) (rest : List Nat)
      (hph : s.phase t = TPhase.waiting) (hh : s.holder = none)
      (hq : s.queue = t :: rest) :
      MStep s { s with holder := some t, queue := rest,
                       phase := setPhase s.phase t TPhase.writing,
                       admitted := s.admitted ++ [t] }
  | writeDone (s : MutexSys) (t : Nat) (h : s.phase t = TPhase.writing)
      (hk : s.kind t = TaskKind.exchange) :
      MStep s { s with phase := setPhase s.phase t TPhase.awaiting }
  | rawWriteFinish (s : MutexSys) (t : Nat) (h : s.phase t = TPhase.writing)
      (hk : s.kind t = TaskKind.rawSend) :
      MStep s { s with holder := none, phase := setPhase s.phase t TPhase.finished }
  | resolveOk (s : MutexSys) (t : Nat) (h : s.phase t = TPhase.awaiting) :
      MStep s { s with holder := none, phase := setPhase s.phase t TPhase.finished }
  | resolveTimeout (s : MutexSys) (t : Nat) (h : s.phase t = TPhase.awaiting) :
      MStep s { s with holder := none, phase := setPhase s.phase t TPhase.finishedErr }
  | throwDuringSection (s : MutexSys) (t : Nat) (h : s.phase t = TPhase.writing) :
      MStep s { s with holder := none, phase := setPhase s.phase t TPhase.finishedErr }

/-- Initial scheduler state: mutex free, no waiters, every task idle. -/
def initSys (k : Nat → TaskKind) : MutexSys :=
  { holder := none, queue := [], admitted := [], enqueued := [],
    kind := k, phase := fun _ => TPhase.idle }

/-- Reachability from the initial state by scheduler steps. -/
def Reachable (k : Nat → TaskKind) (s : MutexSys) : Prop :=
  Relation.ReflTransGen MStep (initSys k) s

/-- The inductive invariant of the scheduler: a task is in its critical
section exactly when it holds the mutex; admissions followed by the current
queue reproduce the enqueue order (FIFO); every queued task is waiting; the
queue has no duplicates. -/
def MutexInv (s : MutexSys) : Prop :=
  (∀ t, InCritical (s.phase t) ↔ s.holder = some t)
  ∧ s.admitted ++ s.queue = s.enqueued
  ∧ (∀ t, t ∈ s.queue → s.phase t = TPhase.waiting)
  ∧ s.queue.Nodup


/-- Task-kind assignment where every task is a sendPacketWaitResponse
exchange; used for concrete runs of the scheduler. -/
def kindExchangeAll : Nat → TaskKind := fun _ => TaskKind.exchange

/-- Concrete scheduler run: the initial state. -/
def mW0 : MutexSys := initSys kindExchangeAll

/-- Concrete scheduler run: task 0 calls runExclusive. -/
def mW1 : MutexSys :=
  { mW0 with phase := setPhase mW0.phase 0 TPhase.waiting,
             queue := mW0.queue ++ [0], enqueued := mW0.enqueued ++ [0] }

/-- Concrete scheduler run: the free mutex admits task 0. -/
def mW2 : MutexSys :=
  { mW1 with holder := some 0, queue := [],
             phase := setPhase mW1.phase 0 TPhase.writing,
             admitted := mW1.admitted ++ [0] }

/-- Concrete scheduler run: task 1 calls runExclusive and queues. -/
def mW3 : MutexSys :=
  { mW2 with phase := setPhase mW2.phase 1 TPhase.waiting,
             queue := mW2.queue ++ [1], enqueued := mW2.enqueued ++ [1] }

/-- Concrete scheduler run: task 0 finishes its write and awaits the
response while still holding the mutex; task 1 still queued. -/
def mW4 : MutexSys := { mW3 with phase := setPhase mW3.phase 0 TPhase.awaiting }

/-- A concrete oneWay packet. -/
def pktOneWay : NiimbotPacket :=
  { command := 3, payload := [1], oneWay := true, validResponseIds := [] }

/-- A concrete two-way packet expecting response identifier 5. -/
def pktTwoWay : NiimbotPacket :=
  { command := 9, payload := [], oneWay := false, validResponseIds := [5] }

/-- A concrete two-way packet with the empty (wildcard) response filter. -/
def pktWildcard : NiimbotPacket :=
  { command := 9, payload := [], oneWay := false, validResponseIds := [] }

/-- A concrete inbound packet with command 5. -/
def pktIn5 : NiimbotPacket :=
  { command := 5, payload := [2], oneWay := false, validResponseIds := [] }

/-- A concrete inbound packet with command 3. -/
def pktIn3 : NiimbotPacket :=
  { command := 3, payload := [2], oneWay := false, validResponseIds := [] }

/-- A concrete pending exchange awaiting response identifier 5. -/
def exFive : Exchange := mkExchange pktTwoWay none

/-- A concrete pending exchange with the wildcard filter. -/
def exWild : Exchange := mkExchange pktWildcard (some 100)

/-- A concrete connected client with a pending exchange. -/
def connectedPending : ClientState :=
  { gattServer := true, channel := true, info := some 0,
    exchange := some exFive, obs := [] }

/-- A concrete connected client with a pending wildcard exchange. -/
def connectedWild : ClientState :=
  { gattServer := true, channel := true, info := none,
    exchange := some exWild, obs := [] }

/-- A concrete disconnected client with nothing pending. -/
def blankClient : ClientState :=
  { gattServer := false, channel := false, info := none,
    exchange := none, obs := [] }

/-- A concrete characteristic supporting notify and writeWithoutResponse. -/
def charGood : BtCharacteristic :=
  { uuid := "cafe", notify := true, writeWithoutResponse := true }

/-- A concrete service with a long-enough uuid holding charGood. -/
def svcGood : BtService := { uuid := "abcdef", characteristics := [charGood] }

/-- A concrete service whose uuid is shorter than the threshold. -/
def svcShort : BtService := { uuid := "ab", characteristics := [charGood] }

/-- A concrete connect environment whose negotiation throws after leaving
connectResult 3. -/
def envGood : ConnectEnv :=
  { gattAvailable := true, deviceName := some "B1",
    services := [svcShort, svcGood], negotiation := Except.error (some 3) }

/-- A concrete connect environment with no suitable characteristic. -/
def envNoChar : ConnectEnv :=
  { gattAvailable := true, deviceName := some "B1",
    services := [svcShort], negotiation := Except.ok none }

/-- A concrete decode function: every byte sequence decodes to a packet with
command 7 carrying the bytes as payload. -/
def decodeW : List Nat → NiimbotPacket :=
  fun data => { command := 7, payload := data, oneWay := false, validResponseIds := [] }

/-- A concrete recognized-response-identifier predicate accepting only 2. -/
def respIdW : Nat → Bool := fun n => n == 2


theorem setPhase_same (f : Nat → TPhase) (t : Nat) (ph : TPhase) :
    setPhase f t ph t = ph := by
  simp [setPhase]

theorem setPhase_other (f : Nat → TPhase) (t : Nat) (ph : TPhase) (u : Nat)
    (h : u ≠ t) : setPhase f t ph u = f u := by
  simp [setPhase, h]

theorem mutexInv_init (k : Nat → TaskKind) : MutexInv (initSys k) := by
  refine ⟨?_, ?_, ?_, ?_⟩ <;> simp [initSys, InCritical, MutexInv]


theorem mutexInv_release (s : MutexSys) (t : Nat) (ph2 : TPhase)
    (hX : ¬ InCritical ph2) (h : InCritical (s.phase t)) (inv : MutexInv s) :
    MutexInv { s with holder := none, phase := setPhase s.phase t ph2 } := by
  obtain ⟨hiff, hfifo, hqw, hnd⟩ := inv
  have hholder : s.holder = some t := (hiff t).mp h
  refine ⟨?_, hfifo, ?_, hnd⟩
  · intro u
    dsimp only
    by_cases hu : u = t
    · subst hu
      rw [setPhase_same]
      constructor
      · intro hc; exact absurd hc hX
      · intro hno; simp at hno
    · rw [setPhase_other _ _ _ _ hu]
      constructor
      · intro hc
        have hsu := (hiff u).mp hc
        rw [hholder] at hsu
        exact absurd (Option.some.inj hsu).symm hu
      · intro hno; simp at hno
  · intro u hu
    dsimp only at hu ⊢
    have hw := hqw u hu
    have hne : u ≠ t := by
      intro he; subst he
      rw [hw] at h
      simp [InCritical] at h
    rw [setPhase_other _ _ _ _ hne]
    exact hw

theorem mutexInv_step (s s2 : MutexSys) (hstep : MStep s s2) (inv : MutexInv s) :
    MutexInv s2 := by
  obtain ⟨hiff, hfifo, hqw, hnd⟩ := inv
  cases hstep with
  | enqueue t ht =>
    refine ⟨?_, ?_, ?_, ?_⟩
    · intro u
      dsimp only
      by_cases hu : u = t
      · subst hu
        rw [setPhase_same]
        constructor
        · intro hc; simp [InCritical] at hc
        · intro hh
          have hc := (hiff u).mpr hh
          rw [ht] at hc
          simp [InCritical] at hc
      · rw [setPhase_other _ _ _ _ hu]; exact hiff u
    · dsimp only
      rw [← List.append_assoc, hfifo]
    · intro u hu
      dsimp only at hu ⊢
      rcases List.mem_append.mp hu with h1 | h1
      · have hw := hqw u h1
        by_cases he : u = t
        · subst he; rw [setPhase_same]
        · rw [setPhase_other _ _ _ _ he]; exact hw
      · have he : u = t := by simpa using h1
        subst he; rw [setPhase_same]
    · dsimp only
      have hnotin : t ∉ s.queue := by
        intro hmem
        have := hqw t hmem
        rw [ht] at this
        simp at this
      exact List.Nodup.append hnd (List.nodup_singleton t)
        (by simp [List.disjoint_singleton, hnotin])
  | acquire t rest hph hh hq =>
    refine ⟨?_, ?_, ?_, ?_⟩
    · intro u
      dsimp only
      by_cases hu : u = t
      · subst hu; rw [setPhase_same]; simp [InCritical]
      · rw [setPhase_other _ _ _ _ hu]
        constructor
        · intro hc
          have hsu := (hiff u).mp hc
          rw [hh] at hsu
          simp at hsu
        · intro heq
          exact absurd (Option.some.inj heq).symm hu
    · dsimp only
      have h2 := hfifo
      rw [hq] at h2
      simpa [List.append_assoc] using h2
    · intro u hu
      dsimp only at hu ⊢
      have hmem : u ∈ s.queue := by rw [hq]; exact List.mem_cons_of_mem _ hu
      have hw := hqw u hmem
      have hne : u ≠ t := by
        intro he; subst he
        rw [hq] at hnd
        exact (List.nodup_cons.mp hnd).1 hu
      rw [setPhase_other _ _ _ _ hne]
      exact hw
    · dsimp only
      rw [hq] at hnd
      exact (List.nodup_cons.mp hnd).2
  | writeDone t h hk =>
    have hholder : s.holder = some t := (hiff t).mp (Or.inl h)
    refine ⟨?_, hfifo, ?_, hnd⟩
    · intro u
      dsimp only
      by_cases hu : u = t
      · subst hu; rw [setPhase_same]; simp [InCritical, hholder]
      · rw [setPhase_other _ _ _ _ hu]; exact hiff u
    · intro u hu
      dsimp only at hu ⊢
      have hw := hqw u hu
      have hne : u ≠ t := by
        intro he; subst he
        rw [h] at hw
        simp at hw
      rw [setPhase_other _ _ _ _ hne]
      exact hw
  | rawWriteFinish t h hk =>
    exact mutexInv_release s t TPhase.finished (by simp [InCritical])
      (Or.inl h) ⟨hiff, hfifo, hqw, hnd⟩
  | resolveOk t h =>
    exact mutexInv_release s t TPhase.finished (by simp [InCritical])
      (Or.inr h) ⟨hiff, hfifo, hqw, hnd⟩
  | resolveTimeout t h =>
    exact mutexInv_release s t TPhase.finishedErr (by simp [InCritical])
      (Or.inr h) ⟨hiff, hfifo, hqw, hnd⟩
  | throwDuringSection t h =>
    exact mutexInv_release s t TPhase.finishedErr (by simp [InCritical])
      (Or.inl h) ⟨hiff, hfifo, hqw, hnd⟩

theorem mutexInv_reachable (k : Nat → TaskKind) (s : MutexSys)
    (h : Reachable k s) : MutexInv s := by
  induction h with
  | refl => exact mutexInv_init k
  | tail hsteps hstep ih => exact mutexInv_step _ _ hstep ih

theorem exchange_write_no_release (s s2 : MutexSys) (hstep : MStep s s2)
    (t : Nat) (hk : s.kind t = TaskKind.exchange)
    (hw : s.phase t = TPhase.writing) : s2.phase t ≠ TPhase.finished := by
  cases hstep with
  | enqueue u hu =>
    dsimp only
    by_cases he : t = u
    · subst he; rw [setPhase_same]; simp
    · rw [setPhase_other _ _ _ _ he, hw]; simp
  | acquire u rest hph hh hq =>
    dsimp only
    by_cases he : t = u
    · subst he; rw [setPhase_same]; simp
    · rw [setPhase_other _ _ _ _ he, hw]; simp
  | writeDone u h1 hk1 =>
    dsimp only
    by_cases he : t = u
    · subst he; rw [setPhase_same]; simp
    · rw [setPhase_other _ _ _ _ he, hw]; simp
  | rawWriteFinish u h1 hk1 =>
    dsimp only
    by_cases he : t = u
    · subst he; rw [hk] at hk1; simp at hk1
    · rw [setPhase_other _ _ _ _ he, hw]; simp
  | resolveOk u h1 =>
    dsimp only
    by_cases he : t = u
    · subst he; rw [hw] at h1; simp at h1
    · rw [setPhase_other _ _ _ _ he, hw]; simp
  | resolveTimeout u h1 =>
    dsimp only
    by_cases he : t = u
    · subst he; rw [setPhase_same]; simp
    · rw [setPhase_other _ _ _ _ he, hw]; simp
  | throwDuringSection u h1 =>
    dsimp only
    by_cases he : t = u
    · subst he; rw [setPhase_same]; simp
    · rw [setPhase_other _ _ _ _ he, hw]; simp

theorem reachable_mW4 : Reachable kindExchangeAll mW4 := by
  have h1 : MStep mW0 mW1 := MStep.enqueue mW0 0 rfl
  have h2 : MStep mW1 mW2 := MStep.acquire mW1 0 [] rfl rfl rfl
  have h3 : MStep mW2 mW3 := MStep.enqueue mW2 1 rfl
  have h4 : MStep mW3 mW4 := MStep.writeDone mW3 0 rfl rfl
  exact Relation.ReflTransGen.tail
    (Relation.ReflTransGen.tail
      (Relation.ReflTransGen.tail (Relation.ReflTransGen.single h1) h2) h3) h4

/-- C1 counterexample: in the concrete connected state connectedPending with
the pending exchange exFive, an explicit disconnect() (and likewise the
gattserverdisconnected listener) leaves the pending exchange exactly as it
was, with no resolution at all — in particular no "connection closed"
failure — even though it clears the session and isConnected becomes false.
This refutes the claim that any disconnect immediately fails the pending
request. -/
theorem disconnect_leaves_pending_counterexample :
    (disconnect connectedPending).exchange = some exFive
    ∧ exFive.outcome = none
    ∧ (disconnectListener connectedPending).exchange = some exFive
    ∧ isConnected (disconnect connectedPending) = false :=
  ⟨rfl, rfl, rfl, rfl⟩

/-- C1 (amended): any disconnect — explicit disconnect() (bluetooth_impl.ts
lines 130-136) or the transport's gattserverdisconnected listener (lines
46-52) — clears the session fields gattServer, channel and info and makes
isConnected() return false, but it does not touch a pending
sendPacketWaitResponse request: the pending exchange is left unchanged (it
can only fail later, when its own timeout fires).  The listener additionally
dispatches the disconnect event. -/
theorem disconnect_clears_session_leaves_pending (s : ClientState) :
    (disconnect s).gattServer = false ∧ (disconnect s).channel = false
    ∧ (disconnect s).info = none ∧ isConnected (disconnect s) = false
    ∧ (disconnect s).exchange = s.exchange
    ∧ (disconnectListener s).gattServer = false
    ∧ (disconnectListener s).channel = false
    ∧ (disconnectListener s).info = none
    ∧ isConnected (disconnectListener s) = false
    ∧ (disconnectListener s).exchange = s.exchange
    ∧ (disconnectListener s).obs = s.obs ++ [Obs.disconnectEv] :=
  ⟨rfl, rfl, rfl, rfl, rfl, rfl, rfl, rfl, rfl, rfl, rfl⟩

/-- C2: in every reachable state of the scheduler, at most one task —
sendPacketWaitResponse exchange or non-forced sendRaw — is in its critical
section (write or await-response phase); admissions followed by the current
queue reproduce the FIFO enqueue order; a task awaiting its response still
holds the mutex (the mutex is not released merely after the write); and no
single step takes an exchange task from its write phase to successful
completion — it must pass through the await phase and release only on
resolution, timeout or throw. -/
theorem mutex_exclusion_fifo (k : Nat → TaskKind) (s : MutexSys)
    (hr : Reachable k s) :
    (∀ t1 t2, InCritical (s.phase t1) → InCritical (s.phase t2) → t1 = t2)
    ∧ s.admitted ++ s.queue = s.enqueued
    ∧ (∀ t, s.phase t = TPhase.awaiting → s.holder = some t)
    ∧ (∀ s2 t, MStep s s2 → s.kind t = TaskKind.exchange →
        s.phase t = TPhase.writing → s2.phase t ≠ TPhase.finished) := by
  obtain ⟨hiff, hfifo, hqw, hnd⟩ := mutexInv_reachable k s hr
  refine ⟨?_, hfifo, ?_, ?_⟩
  · intro t1 t2 h1 h2
    have e1 := (hiff t1).mp h1
    have e2 := (hiff t2).mp h2
    rw [e1] at e2
    exact Option.some.inj e2
  · intro t h
    exact (hiff t).mp (Or.inr h)
  · intro s2 t hstep hk hw
    exact exchange_write_no_release s s2 hstep t hk hw

/-- C2 witness: the concrete reachable state mW4 (task 0 admitted and
awaiting, task 1 queued) satisfies the FIFO equation and task 0 still holds
the mutex while awaiting. -/
theorem mutex_exclusion_fifo_witness :
    mW4.admitted ++ mW4.queue = mW4.enqueued ∧ mW4.holder = some 0 :=
  ⟨(mutex_exclusion_fifo kindExchangeAll mW4 reachable_mW4).2.1,
   (mutex_exclusion_fifo kindExchangeAll mW4 reachable_mW4).2.2.1 0 rfl⟩

/-- C3: for every packet with oneWay = true, the post-write phase of
sendPacketWaitResponse returns immediately with the sentinel invalid packet,
registering no packetreceived listener and starting no timeout timer
(bluetooth_impl.ts lines 146-148). -/
theorem oneway_no_listener_no_timer (p : NiimbotPacket) (t : Option Nat)
    (h : p.oneWay = true) :
    sendPacketWaitResponseSetup p t
      = SendOutcome.immediate NiimbotPacket.invalidSentinel
    ∧ (sendPacketWaitResponseSetup p t).registersListener = false
    ∧ (sendPacketWaitResponseSetup p t).startsTimer = false := by
  simp [sendPacketWaitResponseSetup, h, SendOutcome.registersListener,
    SendOutcome.startsTimer]

/-- C3 witness: the concrete oneWay packet pktOneWay. -/
theorem oneway_no_listener_no_timer_witness :
    sendPacketWaitResponseSetup pktOneWay (some 50)
      = SendOutcome.immediate NiimbotPacket.invalidSentinel
    ∧ (sendPacketWaitResponseSetup pktOneWay (some 50)).registersListener = false
    ∧ (sendPacketWaitResponseSetup pktOneWay (some 50)).startsTimer = false :=
  oneway_no_listener_no_timer pktOneWay (some 50) rfl

/-- C4: for a pending exchange (listener registered, unresolved): the
exchange created for a packet captures the packet's validResponseIds; when
validResponseIds is empty, any inbound packet resolves it (clearing the
timer and removing the listener); when non-empty, an inbound packet resolves
it exactly when its command is a member; and a non-matching inbound packet
leaves the exchange — listener, timer and resolution — unchanged
(bluetooth_impl.ts lines 155-164). -/
theorem response_matching (e : Exchange) (p : NiimbotPacket)
    (pkt : NiimbotPacket) (t : Option Nat)
    (hl : e.listenerRegistered = true) (ho : e.outcome = none) :
    (mkExchange pkt t).waitIds = pkt.validResponseIds
    ∧ (e.waitIds = [] → onPacket p e =
        { e with timerActive := false, listenerRegistered := false,
                 outcome := some (Except.ok p) })
    ∧ (e.waitIds ≠ [] →
        ((onPacket p e).outcome = some (Except.ok p)
          ↔ p.command ∈ e.waitIds))
    ∧ (p.command ∉ e.waitIds → e.waitIds ≠ [] →
        onPacket p e = e) := by
  refine ⟨rfl, ?_, ?_, ?_⟩
  · intro hw
    simp [onPacket, hl, hw]
  · intro hne
    by_cases hm : p.command ∈ e.waitIds
    · simp [onPacket, hl, hm]
    · simp [onPacket, hl, hm, hne, ho]
  · intro hm hne
    simp [onPacket, hl, hm, hne]

/-- C4 witness: the concrete exchange exFive awaiting identifier 5 is
resolved by an inbound packet with command 5 and left unchanged by one with
command 3. -/
theorem response_matching_witness :
    (onPacket pktIn5 exFive).outcome = some (Except.ok pktIn5)
    ∧ onPacket pktIn3 exFive = exFive :=
  ⟨((response_matching exFive pktIn5 pktTwoWay none rfl rfl).2.2.1
      (by decide)).mpr (by decide),
   (response_matching exFive pktIn3 pktTwoWay none rfl rfl).2.2.2 (by decide)
      (by decide)⟩

/-- C5: the timeout duration defaults to 1000 ms when no per-call timeout is
given and is the per-call value otherwise; when the timer fires on a pending
exchange the request is rejected with the timeout error whose message names
the expected response identifier set via the hex rendering of
validResponseIds, and the packetreceived listener is deregistered
(bluetooth_impl.ts lines 166-169); and in the scheduler, from any reachable
state with an awaiting exchange and a queued waiter, the timeout step
releases the mutex and the next queued caller can immediately acquire it. -/
theorem timeout_names_ids_and_frees_gate (p : NiimbotPacket) (d : Nat)
    (e : Exchange) (k : Nat → TaskKind) (s : MutexSys) (t u : Nat)
    (rest : List Nat) (he : e.timerActive = true) (hr : Reachable k s)
    (ht : s.phase t = TPhase.awaiting) (hq : s.queue = u :: rest) :
    (mkExchange p none).timerMs = 1000
    ∧ (mkExchange p (some d)).timerMs = d
    ∧ (onTimeout e).outcome = some (Except.error (timeoutMessage e.waitIds))
    ∧ (onTimeout e).listenerRegistered = false
    ∧ timeoutMessage e.waitIds =
        "Timeout waiting response (waited for "
          ++ Utils.bufToHex e.waitIds ", " ++ ")"
    ∧ ∃ s1 s2, MStep s s1 ∧ MStep s1 s2
        ∧ s1.phase t = TPhase.finishedErr ∧ s1.holder = none
        ∧ s2.phase u = TPhase.writing ∧ s2.holder = some u := by
  obtain ⟨hiff, hfifo, hqw, hnd⟩ := mutexInv_reachable k s hr
  refine ⟨rfl, rfl, ?_, ?_, rfl, ?_⟩
  · simp [onTimeout, he]
  · simp [onTimeout, he]
  · have huq : u ∈ s.queue := by rw [hq]; exact List.mem_cons_self u rest
    have hwu : s.phase u = TPhase.waiting := hqw u huq
    have hut : u ≠ t := by
      intro hEq
      rw [hEq, ht] at hwu
      simp at hwu
    refine ⟨{ s with holder := none, phase := setPhase s.phase t TPhase.finishedErr }, _, MStep.resolveTimeout s t ht, MStep.acquire _ u rest ?_ rfl ?_, ?_, rfl, ?_, rfl⟩
    · dsimp only
      rw [setPhase_other _ _ _ _ hut]
      exact hwu
    · dsimp only
      exact hq
    · dsimp only
      rw [setPhase_same]
    · dsimp only
      rw [setPhase_same]

/-- C5 witness: the concrete pending exchange exFive and the concrete
reachable scheduler state mW4 (task 0 awaiting, task 1 queued). -/
theorem timeout_names_ids_and_frees_gate_witness :
    (onTimeout exFive).outcome
      = some (Except.error (timeoutMessage exFive.waitIds))
    ∧ (onTimeout exFive).listenerRegistered = false
    ∧ ∃ s1 s2, MStep mW4 s1 ∧ MStep s1 s2
        ∧ s1.phase 0 = TPhase.finishedErr ∧ s1.holder = none
        ∧ s2.phase 1 = TPhase.writing ∧ s2.holder = some 1 := by
  have h := timeout_names_ids_and_frees_gate pktTwoWay 250 exFive
    kindExchangeAll mW4 0 1 [] rfl reachable_mW4 rfl rfl
  exact ⟨h.2.2.1, h.2.2.2.1, h.2.2.2.2.2⟩

/-- C6: when the device has a GATT profile and a suitable characteristic is
found, a connect() whose negotiation commands throw still completes
normally: the failure is only logged (console error), the connect event is
dispatched, and the returned ConnectionInfo carries the negotiated
connectResult when it was set and the generic firmware-error code otherwise
(bluetooth_impl.ts lines 86-101). -/
theorem connect_swallows_negotiation_failure (env : ConnectEnv)
    (s : ClientState) (c : BtCharacteristic) (r : Option Nat)
    (hg : env.gattAvailable = true)
    (hc : findSuitableBluetoothCharacteristic env.services = some c)
    (hn : env.negotiation = Except.error r) :
    (connect env s).result = Except.ok
      { deviceName := env.deviceName,
        result := r.getD ConnectResult.FirmwareErrors }
    ∧ (connect env s).final.obs = s.obs ++
        [Obs.consoleError "Unable to fetch printer info.",
         Obs.connectEv env.deviceName (r.getD ConnectResult.FirmwareErrors)] := by
  constructor <;> simp [connect, hg, hc, hn, disconnect]

/-- C6 witness: the concrete environment envGood (negotiation throws after
leaving connectResult 3) on the blank client. -/
theorem connect_swallows_negotiation_failure_witness :
    (connect envGood blankClient).result = Except.ok
      { deviceName := some "B1", result := 3 }
    ∧ (connect envGood blankClient).final.obs =
        [Obs.consoleError "Unable to fetch printer info.",
         Obs.connectEv (some "B1") 3] := by
  have h := connect_swallows_negotiation_failure envGood blankClient charGood
    (some 3) rfl (by decide) rfl
  exact ⟨h.1, h.2⟩

/-- C7: characteristic selection skips every service whose uuid is shorter
than 5 characters and returns the first remaining characteristic that
supports both notify and writeWithoutResponse (equivalence with the
filter-then-first characterization); and when none qualifies, connect()
throws "Suitable device characteristic not found" and leaves the session
disconnected: gattServer and channel unset and isConnected false
(bluetooth_impl.ts lines 61-64, 104-123). -/
theorem characteristic_selection (services : List BtService)
    (env : ConnectEnv) (s : ClientState)
    (hg : env.gattAvailable = true)
    (hnone : findSuitableBluetoothCharacteristic env.services = none) :
    findSuitableBluetoothCharacteristic services =
      (services.filter (fun sv => decide (5 ≤ sv.uuid.length))).findSome?
        (fun sv => sv.characteristics.find?
          (fun c => c.notify && c.writeWithoutResponse))
    ∧ (connect env s).result
        = Except.error "Suitable device characteristic not found"
    ∧ (connect env s).final.gattServer = false
    ∧ (connect env s).final.channel = false
    ∧ isConnected (connect env s).final = false := by
  refine ⟨?_, ?_, ?_, ?_, ?_⟩
  · induction services with
    | nil => rfl
    | cons sv rest ih =>
      by_cases h5 : sv.uuid.length < 5
      · have h5n : ¬ (5 ≤ sv.uuid.length) := by omega
        simp [findSuitableBluetoothCharacteristic, h5, h5n, List.filter_cons, ih]
      · have h5y : 5 ≤ sv.uuid.length := by omega
        cases hfind : sv.characteristics.find?
            (fun c => c.notify && c.writeWithoutResponse) with
        | none =>
          simp [findSuitableBluetoothCharacteristic, h5, h5y, List.filter_cons,
            List.findSome?_cons, hfind, ih]
        | some c =>
          simp [findSuitableBluetoothCharacteristic, h5, h5y, List.filter_cons,
            List.findSome?_cons, hfind]
  · simp [connect, hg, hnone]
  · simp [connect, hg, hnone, disconnect]
  · simp [connect, hg, hnone, disconnect]
  · simp [connect, hg, hnone, disconnect, isConnected]

/-- C7 witness: the concrete environment envNoChar, whose only service has a
too-short uuid. -/
theorem characteristic_selection_witness :
    findSuitableBluetoothCharacteristic [svcShort, svcGood] = some charGood
    ∧ (connect envNoChar blankClient).result
        = Except.error "Suitable device characteristic not found"
    ∧ isConnected (connect envNoChar blankClient).final = false := by
  have h := characteristic_selection [svcShort, svcGood] envNoChar blankClient
    rfl (by decide)
  exact ⟨by decide, h.2.1, h.2.2.2.2⟩

/-- C8: for every inbound notification, rawpacketreceived with the raw bytes
is published first, then packetreceived with the decoded packet, and — only
when the decoded command is not a recognized response identifier — a warning
is produced after both events; the decoded packet, recognized or not, still
resolves a pending exchange whose validResponseIds filter is empty
(bluetooth_impl.ts lines 68-79 together with the listener of lines
155-164). -/
theorem inbound_event_order (isRespId : Nat → Bool)
    (decode : List Nat → NiimbotPacket) (data : List Nat) (s : ClientState)
    (e : Exchange) (hex : s.exchange = some e)
    (hl : e.listenerRegistered = true) (hw : e.waitIds = []) :
    (processInbound isRespId decode data s).obs =
      s.obs ++ [Obs.rawpacketreceivedEv data, Obs.packetreceivedEv (decode data)]
        ++ (if isRespId (decode data).command then []
            else [Obs.warn (decode data).command])
    ∧ (processInbound isRespId decode data s).exchange =
      some { e with timerActive := false, listenerRegistered := false,
                    outcome := some (Except.ok (decode data)) } := by
  constructor
  · by_cases hr : isRespId (decode data).command <;>
      simp [processInbound, hr]
  · by_cases hr : isRespId (decode data).command <;>
      simp [processInbound, hr, hex, onPacket, hl, hw]

/-- C8 witness: the concrete client connectedWild (pending wildcard
exchange), decode function decodeW producing command 7 and the predicate
respIdW that does not recognize 7, on the raw bytes 9, 9. -/
theorem inbound_event_order_witness :
    (processInbound respIdW decodeW [9, 9] connectedWild).obs =
      connectedWild.obs ++ [Obs.rawpacketreceivedEv [9, 9],
        Obs.packetreceivedEv (decodeW [9, 9])]
        ++ (if respIdW (decodeW [9, 9]).command then []
            else [Obs.warn (decodeW [9, 9]).command])
    ∧ (processInbound respIdW decodeW [9, 9] connectedWild).exchange =
      some { exWild with timerActive := false, listenerRegistered := false,
                         outcome := some (Except.ok (decodeW [9, 9])) } :=
  inbound_event_order respIdW decodeW [9, 9] connectedWild exWild rfl rfl rfl

/-- C9: sendRaw with force performs exactly the same steps as sendRaw
without force apart from the mutex: filtering the lock actions out of the
non-forced run yields the forced run with the same error; both throw
"Channel is closed" exactly when the channel is unset; and when the channel
is set the steps are the inter-packet sleep, then the write without
response, then the rawpacketsent dispatch (bluetooth_impl.ts lines
176-191). -/
theorem sendraw_force_refinement (ch : Bool) (ms : Nat) (data : List Nat) :
    ((sendRaw ch ms data false).1.filter (fun a => !(RawAct.isLockAct a)),
      (sendRaw ch ms data false).2) = sendRaw ch ms data true
    ∧ ((sendRaw ch ms data true).2 = some "Channel is closed" ↔ ch = false)
    ∧ ((sendRaw ch ms data false).2 = some "Channel is closed" ↔ ch = false)
    ∧ (ch = true → (sendRaw ch ms data true).1 =
        [RawAct.sleepAct ms, RawAct.writeAct data,
         RawAct.rawpacketsentAct data]) := by
  cases ch <;> simp [sendRaw, sendBody, RawAct.isLockAct]

/-- C9 witness: concrete open-channel run with delay 7 and bytes 1, 2. -/
theorem sendraw_force_refinement_witness :
    ((sendRaw true 7 [1, 2] false).1.filter (fun a => !(RawAct.isLockAct a)),
      (sendRaw true 7 [1, 2] false).2) = sendRaw true 7 [1, 2] true
    ∧ (sendRaw true 7 [1, 2] true).1 =
        [RawAct.sleepAct 7, RawAct.writeAct [1, 2],
         RawAct.rawpacketsentAct [1, 2]] :=
  ⟨(sendraw_force_refinement true 7 [1, 2]).1,
   (sendraw_force_refinement true 7 [1, 2]).2.2.2 rfl⟩

/-- C10: isConnected returns true exactly when both gattServer and channel
are set; in a successful connect() run the phases occur in statement order
with the session fields assigned immediately after notifications are started
and before negotiation runs; and at the start of negotiation isConnected is
already true with gattServer and channel equal to their values after connect
returns — no state distinguishes the negotiation phase from the connected
steady state (bluetooth_impl.ts lines 81-101, 125-127). -/
theorem connected_throughout_negotiation (env : ConnectEnv) (s : ClientState)
    (c : BtCharacteristic) (hg : env.gattAvailable = true)
    (hc : findSuitableBluetoothCharacteristic env.services = some c) :
    (connect env s).trace.map Prod.fst =
      [ConnectPhase.disconnectPrior, ConnectPhase.findCharacteristic,
       ConnectPhase.startNotifications, ConnectPhase.assignSessionFields,
       ConnectPhase.negotiationStart, ConnectPhase.negotiationEnd,
       ConnectPhase.dispatchConnect]
    ∧ (∀ st, (ConnectPhase.negotiationStart, st) ∈ (connect env s).trace →
        isConnected st = true
        ∧ st.gattServer = (connect env s).final.gattServer
        ∧ st.channel = (connect env s).final.channel)
    ∧ (∀ st : ClientState, isConnected st = true
        ↔ (st.gattServer = true ∧ st.channel = true)) := by
  refine ⟨?_, ?_, ?_⟩
  · cases hneg : env.negotiation with
    | ok r => simp [connect, hg, hc, hneg]
    | error r => simp [connect, hg, hc, hneg]
  · intro st hst
    cases hneg : env.negotiation with
    | ok r =>
      simp only [connect, hg, hc, hneg, if_neg, Bool.true_eq_false,
        not_false_eq_true, List.mem_cons, List.mem_singleton,
        Prod.mk.injEq, reduceCtorEq, false_and, false_or] at hst
      rcases hst with ⟨h1, h2⟩ | hfalse
      · subst h2
        refine ⟨rfl, ?_, ?_⟩ <;> simp [connect, hg, hc, hneg]
      · simp at hfalse
    | error r =>
      simp only [connect, hg, hc, hneg, if_neg, Bool.true_eq_false,
        not_false_eq_true, List.mem_cons, List.mem_singleton,
        Prod.mk.injEq, reduceCtorEq, false_and, false_or] at hst
      rcases hst with ⟨h1, h2⟩ | hfalse
      · subst h2
        refine ⟨rfl, ?_, ?_⟩ <;> simp [connect, hg, hc, hneg]
      · simp at hfalse
  · intro st
    simp [isConnected, Bool.and_eq_true]

/-- C10 witness: the concrete environment envGood on the blank client. -/
theorem connected_throughout_negotiation_witness :
    (connect envGood blankClient).trace.map Prod.fst =
      [ConnectPhase.disconnectPrior, ConnectPhase.findCharacteristic,
       ConnectPhase.startNotifications, ConnectPhase.assignSessionFields,
       ConnectPhase.negotiationStart, ConnectPhase.negotiationEnd,
       ConnectPhase.dispatchConnect]
    ∧ (isConnected blankClient = true
        ↔ (blankClient.gattServer = true ∧ blankClient.channel = true)) := by
  have h := connected_throughout_negotiation envGood blankClient charGood rfl
    (by decide)
  exact ⟨h.1, h.2.2 blankClient⟩
